import Mathlib

/-!
Verification of the tiled-matrix visualizer (src/matrix_visualizer.py).

The module exposes one operation, draw_matrix, with one piece of retained
state, the module-level `_figure_cache` (a weakref.WeakValueDictionary).
We embed the operation shallowly: matrices are functions from row and
column indices to integers together with explicit shape counts, matplotlib
figures are records, and the whole call is a function from parameters and
a world state to an optional raised Python error together with the world
state after the call (Python exceptions leave already-performed side
effects in place, so the error case carries the partial state).
-/

/-- Python exception kinds raised by the source module. -/
inductive PyError where
  | typeError (msg : String)
  | valueError (msg : String)
  | nameError (missing : String)
  deriving DecidableEq

/-- The matrix argument: either a genuine 2D numpy array (shape and
entries), or anything failing the check at line 53 of the source
(not an ndarray, or ndim different from 2). -/
inductive MatInput where
  | mat2d (rows cols : Nat) (data : Nat → Nat → Int)
  | notMat2d

/-- A grid_rows or grid_cols argument as the source sees it: absent
(None), a Python int, or some other numeric value that fails the
isinstance int check at lines 65 and 67. -/
inductive GridParam where
  | none
  | int (n : Int)
  | nonIntNumeric

/-- Data held by one imshow artist: a boolean array in binary mode, a
numeric array in color mode. -/
inductive ImgData where
  | bin (d : Nat → Nat → Bool)
  | num (d : Nat → Nat → Int)

/-- A colormap value: either an explicit ListedColormap with its colors,
or a named matplotlib colormap. -/
inductive Cmap where
  | listed (colors : List String)
  | named (s : String)

/-- One imshow artist: its data, colormap and color limits (clim). -/
structure ImageObj where
  data : ImgData
  cmap : Cmap
  climLo : Int
  climHi : Int

/-- One matplotlib figure: whether its window is still open, the current
suptitle text (none until a suptitle Text object is first created; set_text
of the empty string leaves some ""), and the image_objects array attached
to the handle created with it. -/
structure Figure where
  isOpen : Bool
  suptitle : Option String
  images : Nat → Nat → Option ImageObj

/-- A fresh figure as produced by plt.subplots at line 91 together with
the empty image_objects array of line 100. -/
def freshFigure : Figure :=
  { isOpen := true, suptitle := Option.none, images := fun _ _ => Option.none }

/-- The cache key of line 85: (title, effective_grid_rows,
effective_grid_cols, figsize). -/
def FigKey : Type := Option String × Nat × Nat × (Int × Int)

instance : DecidableEq FigKey := by
  unfold FigKey
  infer_instance

/-- Configuration key constructor, line 85 of the source. -/
def figureKey (title : Option String) (egr egc : Nat) (figsize : Int × Int) : FigKey :=
  (title, egr, egc, figsize)

/-- Process-wide state: the open figures (by id), each figure state, the
contents of the weak-value dictionary `_figure_cache` (key to figure id of
the cached tuple), and the next fresh figure number. -/
structure World where
  figs : List Nat
  figState : Nat → Figure
  cache : List (FigKey × Nat)
  nextId : Nat

/-- Pointwise update of the figure map. -/
def setFig (f : Nat → Figure) (id : Nat) (v : Figure) : Nat → Figure :=
  fun n => if n = id then v else f n

/-- Lookup in the cache, as _figure_cache.get(figure_key, ...) at line 87. -/
def cacheGet (cache : List (FigKey × Nat)) (k : FigKey) : Option Nat :=
  (cache.find? (fun p => decide (p.1 = k))).map (fun p => p.2)

/-- Python tuples do not define a weakref slot, so they cannot be the
target of a weak reference. -/
def tupleSupportsWeakref : Bool := false

/-- Semantics of WeakValueDictionary setitem at line 103: the dictionary
wraps the stored value in a weak reference (KeyedRef); creating a weak
reference to a value that does not support them raises TypeError before
anything is inserted. The stored value in the source is the plain tuple
(fig, axes, image_objects). -/
def weakValueStore (cache : List (FigKey × Nat)) (k : FigKey) (v : Nat) :
    Except PyError (List (FigKey × Nat)) :=
  if tupleSupportsWeakref then
    Except.ok ((k, v) :: cache.filter (fun p => decide (p.1 ≠ k)))
  else
    Except.error (PyError.typeError "cannot create weak reference to a tuple object")

/-- Truthiness of an optional Python string: None and the empty string are
falsy, every other string is truthy. -/
def pyTruthy : Option String → Bool
  | Option.none => false
  | Option.some s => s ≠ ""

/-- Suptitle handling, lines 157 to 162: a truthy title is set as the
heading; otherwise, if a suptitle Text object exists, its text is set to
the empty string (a figure that never had a suptitle stays without one). -/
def applySuptitle (title : Option String) (cur : Option String) : Option String :=
  if pyTruthy title then title
  else
    match cur with
    | Option.some _ => Option.some ""
    | Option.none => Option.none

/-- Numpy slice X[i*tr:(i+1)*tr, j*tc:(j+1)*tc] as used at lines 125 and
145: entry (r, c) of the slice is entry (i*tr + r, j*tc + c) of X. -/
def slice2d {α : Type} (m : Nat → Nat → α) (tr tc i j : Nat) : Nat → Nat → α :=
  fun r c => m (i * tr + r) (j * tc + c)

/-- Elementwise threshold of line 117: binary_matrix = matrix > 0. -/
def binaryMatrix (m : Nat → Nat → Int) : Nat → Nat → Bool :=
  fun r c => decide (0 < m r c)

/-- The discrete colormap of line 119: index 0 is black, index 1 white. -/
def binary_cmap : Cmap := Cmap.listed ["black", "white"]

/-- Binary-mode image contents for the tile at grid cell (i, j), lines 115
to 134: the thresholded sub-block, the two-entry palette, and the fixed
color limits 0 and 1. The imshow call on first render and the set_data,
set_cmap, set_clim calls on later renders assign exactly these values;
object identity of the artist is not modelled. -/
def mkBinaryImage (m : Nat → Nat → Int) (tr tc i j : Nat) : ImageObj :=
  { data := ImgData.bin (slice2d (binaryMatrix m) tr tc i j)
    cmap := binary_cmap
    climLo := 0
    climHi := 1 }

/-- All entries of the rows-by-cols matrix, row major, as numpy reduces
over them. -/
def matValues (m : Nat → Nat → Int) (rows cols : Nat) : List Int :=
  (List.range rows).flatMap (fun r => (List.range cols).map (fun c => m r c))

/-- Minimum of a list of values, seeded at its head (np.min semantics on a
nonempty array; the empty case never arises under the shapes we state
theorems for). -/
def npMin : List Int → Int
  | [] => 0
  | v :: vs => vs.foldl min v

/-- Maximum of a list of values, seeded at its head (np.max semantics). -/
def npMax : List Int → Int
  | [] => 0
  | v :: vs => vs.foldl max v

/-- Minimum over the entire matrix, np.min(matrix) at line 138. -/
def matMin (m : Nat → Nat → Int) (rows cols : Nat) : Int :=
  npMin (matValues m rows cols)

/-- Maximum over the entire matrix, np.max(matrix) at line 139. -/
def matMax (m : Nat → Nat → Int) (rows cols : Nat) : Int :=
  npMax (matValues m rows cols)

/-- Color-mode image contents for the tile at grid cell (i, j), lines 136
to 154: the raw sub-block, the requested or default viridis palette, and
color limits defaulting to the minimum and maximum of the entire input
matrix (not of the tile). -/
def mkColorImage (m : Nat → Nat → Int) (rows cols tr tc : Nat)
    (cmap : Option String) (vmin vmax : Option Int) (i j : Nat) : ImageObj :=
  { data := ImgData.num (slice2d m tr tc i j)
    cmap := Cmap.named (cmap.getD "viridis")
    climLo := vmin.getD (matMin m rows cols)
    climHi := vmax.getD (matMax m rows cols) }

/-- Reassembly of the tiles in order: the cell (x, y) of the reassembled
matrix is taken from tile (x / tr, y / tc) at offset (x mod tr, y mod tc). -/
def reassemble (m : Nat → Nat → Int) (tr tc : Nat) : Nat → Nat → Int :=
  fun x y => slice2d m tr tc (x / tr) (y / tc) (x % tr) (y % tc)

/-- Validation of one grid dimension, lines 62 to 68: None defaults to 1;
a non-int or non-positive value raises ValueError with the given message. -/
def checkGridParam (p : GridParam) (msg : String) : Except PyError Nat :=
  match p with
  | GridParam.none => Except.ok 1
  | GridParam.int n => if n ≤ 0 then Except.error (PyError.valueError msg) else Except.ok n.toNat
  | GridParam.nonIntNumeric => Except.error (PyError.valueError msg)

/-- Effective grid dimension when the parameter is valid, none otherwise. -/
def effGrid : GridParam → Option Nat
  | GridParam.none => Option.some 1
  | GridParam.int n => if 0 < n then Option.some n.toNat else Option.none
  | GridParam.nonIntNumeric => Option.none

/-- Result of a successful validation: the matrix shape and entries and
the effective grid dimensions. -/
structure ValidOut where
  rows : Nat
  cols : Nat
  data : Nat → Nat → Int
  egr : Nat
  egc : Nat

/-- Validation phase of draw_matrix, lines 53 to 77, in source order:
2D check (TypeError), mode check (ValueError), grid_rows then grid_cols
checks (ValueError), divisibility check. On the non-dividing path the
source formats its message with an f-string that references the name
effective_cols, which is not defined anywhere in the function, so
evaluating the message raises NameError before the ValueError is ever
constructed. -/
def validate (matrix : MatInput) (mode : String) (gr gc : GridParam) :
    Except PyError ValidOut :=
  match matrix with
  | MatInput.notMat2d => Except.error (PyError.typeError "Input matrix must be a 2D numpy array.")
  | MatInput.mat2d rows cols data =>
    if mode = "binary" ∨ mode = "color" then
      match checkGridParam gr "grid_rows must be a positive integer." with
      | Except.error e => Except.error e
      | Except.ok egr =>
        match checkGridParam gc "grid_cols must be a positive integer." with
        | Except.error e => Except.error e
        | Except.ok egc =>
          if rows % egr ≠ 0 ∨ cols % egc ≠ 0 then
            Except.error (PyError.nameError "effective_cols")
          else
            Except.ok ⟨rows, cols, data, egr, egc⟩
    else Except.error (PyError.valueError "Parameter mode must be binary or color.")

/-- Rendering loops of lines 115 to 154: every grid cell (i, j) with
i below effective_grid_rows and j below effective_grid_cols receives the
image contents for its tile; cells outside the grid are untouched. -/
def renderTiles (fig : Figure) (mode : String) (v : ValidOut)
    (cmap : Option String) (vmin vmax : Option Int) : Figure :=
  let tr := v.rows / v.egr
  let tc := v.cols / v.egc
  if mode = "binary" then
    { fig with images := fun i j =>
        if i < v.egr ∧ j < v.egc then Option.some (mkBinaryImage v.data tr tc i j)
        else fig.images i j }
  else if mode = "color" then
    { fig with images := fun i j =>
        if i < v.egr ∧ j < v.egc then
          Option.some (mkColorImage v.data v.rows v.cols tr tc cmap vmin vmax i j)
        else fig.images i j }
  else fig

/-- Parameters of one draw_matrix call. -/
structure DrawParams where
  matrix : MatInput
  mode : String
  grid_rows : GridParam
  grid_cols : GridParam
  figsize : Int × Int
  cmap : Option String
  vmin : Option Int
  vmax : Option Int
  title : Option String

/-- Effect of one call on the figure it targets: render every tile, then
apply the suptitle handling of lines 156 to 162. -/
def updateFigure (p : DrawParams) (v : ValidOut) (f : Figure) : Figure :=
  let f1 := renderTiles f p.mode v p.cmap p.vmin p.vmax
  { f1 with suptitle := applySuptitle p.title f1.suptitle }

/-- Update phase on the figure the call targets: render every tile, then
apply the suptitle handling of lines 156 to 162, then redraw (the flush
and pause of lines 165 to 172 have no modelled effect). -/
def drawRender (p : DrawParams) (v : ValidOut) (w : World) (figId : Nat) :
    Option PyError × World :=
  (Option.none,
   { w with figState := setFig w.figState figId (updateFigure p v (w.figState figId)) })

/-- Creation path of lines 90 to 103: allocate a fresh figure with an
empty image_objects array (a new window opens), then register the
(fig, axes, image_objects) tuple in the weak-value dictionary. The store
raises TypeError (see weakValueStore), which propagates with the freshly
opened figure left behind and nothing cached; had the store succeeded,
rendering would continue on the new figure. -/
def drawCreate (p : DrawParams) (v : ValidOut) (w : World) : Option PyError × World :=
  match weakValueStore w.cache (figureKey p.title v.egr v.egc p.figsize) w.nextId with
  | Except.error e =>
    (Option.some e,
     { w with
       figs := w.figs ++ [w.nextId]
       nextId := w.nextId + 1
       figState := setFig w.figState w.nextId freshFigure })
  | Except.ok c =>
    drawRender p v
      { w with
        figs := w.figs ++ [w.nextId]
        nextId := w.nextId + 1
        figState := setFig w.figState w.nextId freshFigure
        cache := c }
      w.nextId

/-- The whole draw_matrix call on a world state. Returns the raised error,
if any, together with the world after the call; an error carries the side
effects already performed before the raise. Flow of lines 53 to 172:
validate, build the configuration key, look it up in the cache; a hit
whose figure is still open is rendered onto in place; a miss, or a hit
whose window was closed, takes the creation path. -/
def draw_matrix (p : DrawParams) (w : World) : Option PyError × World :=
  match validate p.matrix p.mode p.grid_rows p.grid_cols with
  | Except.error e => (Option.some e, w)
  | Except.ok v =>
    match cacheGet w.cache (figureKey p.title v.egr v.egc p.figsize) with
    | Option.some figId =>
      if (w.figState figId).isOpen then drawRender p v w figId
      else drawCreate p v w
    | Option.none => drawCreate p v w

/-- A grid parameter is invalid when it is a non-positive int or not an
int at all; None is valid (it defaults to 1). -/
def invalidGrid : GridParam → Prop
  | GridParam.none => False
  | GridParam.int n => n ≤ 0
  | GridParam.nonIntNumeric => True

/-- The matrix shape is not exactly divisible by the (otherwise valid)
effective grid dimensions. -/
def nonDividing (p : DrawParams) : Prop :=
  ∃ rows cols d, p.matrix = MatInput.mat2d rows cols d ∧
    ∃ egr egc, effGrid p.grid_rows = Option.some egr ∧
      effGrid p.grid_cols = Option.some egc ∧
      (rows % egr ≠ 0 ∨ cols % egc ≠ 0)

/-- Invalid inputs of the validation contract: non-2D input, unrecognized
mode, invalid grid_rows or grid_cols, or non-dividing grid dimensions. -/
def invalidInput (p : DrawParams) : Prop :=
  p.matrix = MatInput.notMat2d ∨
  (p.mode ≠ "binary" ∧ p.mode ≠ "color") ∨
  invalidGrid p.grid_rows ∨
  invalidGrid p.grid_cols ∨
  nonDividing p

/-- The empty world: no figures, empty cache. -/
def wEmpty : World :=
  { figs := [], figState := fun _ => freshFigure, cache := [], nextId := 0 }

/-- A valid 1x1 call in binary mode with all defaults and no title. -/
def pSample : DrawParams :=
  { matrix := MatInput.mat2d 1 1 (fun _ _ => 0)
    mode := "binary"
    grid_rows := GridParam.none
    grid_cols := GridParam.none
    figsize := (6, 6)
    cmap := Option.none
    vmin := Option.none
    vmax := Option.none
    title := Option.none }

/-- The same call with title T. -/
def pTitled : DrawParams := { pSample with title := Option.some "T" }

/-- A figure whose window the user has closed. -/
def closedFigure : Figure :=
  { isOpen := false, suptitle := Option.none, images := fun _ _ => Option.none }

/-- An open figure whose suptitle was previously set to T. -/
def titledFigure : Figure :=
  { isOpen := true, suptitle := Option.some "T", images := fun _ _ => Option.none }

/-- A world whose cache maps the titled 1x1 configuration key to figure 0,
which the user has closed. -/
def wClosed : World :=
  { figs := [0]
    figState := setFig (fun _ => freshFigure) 0 closedFigure
    cache := [(figureKey (Option.some "T") 1 1 (6, 6), 0)]
    nextId := 1 }

/-- A world holding an open figure 0 whose heading is T, cached under the
titled 1x1 configuration key. -/
def wTitled : World :=
  { figs := [0]
    figState := setFig (fun _ => freshFigure) 0 titledFigure
    cache := [(figureKey (Option.some "T") 1 1 (6, 6), 0)]
    nextId := 1 }

/-- An invalid call: the matrix argument is not a 2D array. -/
def pNot2d : DrawParams := { pSample with matrix := MatInput.notMat2d }

/-- A sample matrix with pairwise distinct entries. -/
def mSample : Nat → Nat → Int := fun x y => 10 * (x : Int) + (y : Int)

theorem foldl_min_le_init (vs : List Int) (a : Int) : vs.foldl min a ≤ a := by
  induction vs generalizing a with
  | nil => exact le_refl a
  | cons v vs ih =>
    simp only [List.foldl_cons]
    exact le_trans (ih (min a v)) (min_le_left a v)

theorem foldl_min_le_mem (vs : List Int) (a x : Int) (hx : x ∈ vs) :
    vs.foldl min a ≤ x := by
  induction vs generalizing a with
  | nil => cases hx
  | cons v vs ih =>
    simp only [List.foldl_cons]
    cases hx with
    | head => exact le_trans (foldl_min_le_init vs (min a x)) (min_le_right a x)
    | tail _ h => exact ih (min a v) h

theorem foldl_min_mem (vs : List Int) (a : Int) :
    vs.foldl min a = a ∨ vs.foldl min a ∈ vs := by
  induction vs generalizing a with
  | nil => left; rfl
  | cons v vs ih =>
    simp only [List.foldl_cons]
    rcases ih (min a v) with h | h
    · rcases min_choice a v with h2 | h2
      · left; rw [h, h2]
      · right; rw [h, h2]; exact List.mem_cons_self v vs
    · right; exact List.mem_cons_of_mem v h

theorem le_foldl_max_init (vs : List Int) (a : Int) : a ≤ vs.foldl max a := by
  induction vs generalizing a with
  | nil => exact le_refl a
  | cons v vs ih =>
    simp only [List.foldl_cons]
    exact le_trans (le_max_left a v) (ih (max a v))

theorem mem_le_foldl_max (vs : List Int) (a x : Int) (hx : x ∈ vs) :
    x ≤ vs.foldl max a := by
  induction vs generalizing a with
  | nil => cases hx
  | cons v vs ih =>
    simp only [List.foldl_cons]
    cases hx with
    | head => exact le_trans (le_max_right a x) (le_foldl_max_init vs (max a x))
    | tail _ h => exact ih (max a v) h

theorem foldl_max_mem (vs : List Int) (a : Int) :
    vs.foldl max a = a ∨ vs.foldl max a ∈ vs := by
  induction vs generalizing a with
  | nil => left; rfl
  | cons v vs ih =>
    simp only [List.foldl_cons]
    rcases ih (max a v) with h | h
    · rcases max_choice a v with h2 | h2
      · left; rw [h, h2]
      · right; rw [h, h2]; exact List.mem_cons_self v vs
    · right; exact List.mem_cons_of_mem v h

theorem npMin_le (l : List Int) (x : Int) (hx : x ∈ l) : npMin l ≤ x := by
  match l with
  | [] => cases hx
  | v :: vs =>
    cases hx with
    | head => exact foldl_min_le_init vs x
    | tail _ h => exact foldl_min_le_mem vs v x h

theorem npMin_mem (l : List Int) (hl : l ≠ []) : npMin l ∈ l := by
  match l with
  | [] => exact absurd rfl hl
  | v :: vs =>
    show vs.foldl min v ∈ v :: vs
    rcases foldl_min_mem vs v with h | h
    · rw [h]; exact List.mem_cons_self v vs
    · exact List.mem_cons_of_mem v h

theorem le_npMax (l : List Int) (x : Int) (hx : x ∈ l) : x ≤ npMax l := by
  match l with
  | [] => cases hx
  | v :: vs =>
    cases hx with
    | head => exact le_foldl_max_init vs x
    | tail _ h => exact mem_le_foldl_max vs v x h

theorem npMax_mem (l : List Int) (hl : l ≠ []) : npMax l ∈ l := by
  match l with
  | [] => exact absurd rfl hl
  | v :: vs =>
    show vs.foldl max v ∈ v :: vs
    rcases foldl_max_mem vs v with h | h
    · rw [h]; exact List.mem_cons_self v vs
    · exact List.mem_cons_of_mem v h

theorem mem_matValues (m : Nat → Nat → Int) (rows cols r c : Nat)
    (hr : r < rows) (hc : c < cols) : m r c ∈ matValues m rows cols := by
  unfold matValues
  exact List.mem_flatMap.mpr
    ⟨r, List.mem_range.mpr hr, List.mem_map.mpr ⟨c, List.mem_range.mpr hc, rfl⟩⟩

theorem matValues_elems (m : Nat → Nat → Int) (rows cols : Nat) (x : Int)
    (hx : x ∈ matValues m rows cols) :
    ∃ r, r < rows ∧ ∃ c, c < cols ∧ x = m r c := by
  unfold matValues at hx
  rcases List.mem_flatMap.mp hx with ⟨r, hr, hmem⟩
  rcases List.mem_map.mp hmem with ⟨c, hc, rfl⟩
  exact ⟨r, List.mem_range.mp hr, c, List.mem_range.mp hc, rfl⟩

theorem matValues_ne_nil (m : Nat → Nat → Int) (rows cols : Nat)
    (hr : 0 < rows) (hc : 0 < cols) : matValues m rows cols ≠ [] :=
  List.ne_nil_of_mem (mem_matValues m rows cols 0 0 hr hc)

theorem matMin_le (m : Nat → Nat → Int) (rows cols r c : Nat)
    (hr : r < rows) (hc : c < cols) : matMin m rows cols ≤ m r c :=
  npMin_le _ _ (mem_matValues m rows cols r c hr hc)

theorem le_matMax (m : Nat → Nat → Int) (rows cols r c : Nat)
    (hr : r < rows) (hc : c < cols) : m r c ≤ matMax m rows cols :=
  le_npMax _ _ (mem_matValues m rows cols r c hr hc)

theorem matMin_attained (m : Nat → Nat → Int) (rows cols : Nat)
    (hr : 0 < rows) (hc : 0 < cols) :
    ∃ r, r < rows ∧ ∃ c, c < cols ∧ matMin m rows cols = m r c :=
  matValues_elems m rows cols _ (npMin_mem _ (matValues_ne_nil m rows cols hr hc))

theorem matMax_attained (m : Nat → Nat → Int) (rows cols : Nat)
    (hr : 0 < rows) (hc : 0 < cols) :
    ∃ r, r < rows ∧ ∃ c, c < cols ∧ matMax m rows cols = m r c :=
  matValues_elems m rows cols _ (npMax_mem _ (matValues_ne_nil m rows cols hr hc))

theorem checkGridParam_ok (g : GridParam) (msg : String) (n : Nat)
    (h : checkGridParam g msg = Except.ok n) : effGrid g = Option.some n := by
  cases g with
  | none =>
    simp only [checkGridParam, Except.ok.injEq] at h
    rw [← h]; rfl
  | int k =>
    simp only [checkGridParam] at h
    split at h
    · cases h
    · simp only [Except.ok.injEq] at h
      rename_i hk
      simp only [effGrid, if_pos (lt_of_not_le hk), h]
  | nonIntNumeric => cases h

theorem invalidGrid_effGrid_none (g : GridParam) (h : invalidGrid g) :
    effGrid g = Option.none := by
  cases g with
  | none => cases h
  | int k =>
    have hk : k ≤ 0 := h
    simp only [effGrid, if_neg (not_lt.mpr hk)]
  | nonIntNumeric => rfl

theorem validate_ok_spec (matrix : MatInput) (mode : String) (gr gc : GridParam)
    (v : ValidOut) (h : validate matrix mode gr gc = Except.ok v) :
    matrix = MatInput.mat2d v.rows v.cols v.data ∧
    (mode = "binary" ∨ mode = "color") ∧
    effGrid gr = Option.some v.egr ∧ effGrid gc = Option.some v.egc ∧
    v.rows % v.egr = 0 ∧ v.cols % v.egc = 0 := by
  cases matrix with
  | notMat2d => simp [validate] at h
  | mat2d rows cols d =>
    simp only [validate] at h
    split at h
    · rename_i hm
      cases hgr : checkGridParam gr "grid_rows must be a positive integer." with
      | error e => simp only [hgr] at h; exact Except.noConfusion h
      | ok egr =>
        simp only [hgr] at h
        cases hgc : checkGridParam gc "grid_cols must be a positive integer." with
        | error e => simp only [hgc] at h; exact Except.noConfusion h
        | ok egc =>
          simp only [hgc] at h
          split at h
          · simp at h
          · rename_i hd
            simp only [ne_eq, not_or, not_not] at hd
            injection h with h2
            subst h2
            exact ⟨rfl, hm, checkGridParam_ok gr _ egr hgr,
              checkGridParam_ok gc _ egc hgc, hd.1, hd.2⟩
    · simp at h

theorem draw_matrix_validate_error (p : DrawParams) (w : World) (e : PyError)
    (h : validate p.matrix p.mode p.grid_rows p.grid_cols = Except.error e) :
    draw_matrix p w = (Option.some e, w) := by
  unfold draw_matrix
  rw [h]

/-- C1: for every 2D matrix and positive grid dimensions dividing its
shape exactly, draw_matrix partitions the matrix into grid_rows by
grid_cols disjoint contiguous tiles of size (rows/grid_rows) by
(cols/grid_cols); the tile at grid cell (i, j) is the sub-block starting
at row i*(rows/grid_rows) and column j*(cols/grid_cols) (the slice of
lines 125 and 145), every matrix cell lies in exactly one tile, and
reassembling the tiles in order reconstructs the original matrix. -/
theorem draw_matrix_tiling (rows cols gr gc : Nat) (hgr : 0 < gr) (hgc : 0 < gc)
    (hr : rows % gr = 0) (hc : cols % gc = 0) (m : Nat → Nat → Int) :
    (∀ i j r c, slice2d m (rows / gr) (cols / gc) i j r c =
        m (i * (rows / gr) + r) (j * (cols / gc) + c)) ∧
    (∀ x, x < rows → x / (rows / gr) < gr ∧ x % (rows / gr) < rows / gr) ∧
    (∀ y, y < cols → y / (cols / gc) < gc ∧ y % (cols / gc) < cols / gc) ∧
    (∀ (t i r i' r' : Nat), i * t + r = i' * t + r' → r < t → r' < t → i = i' ∧ r = r') ∧
    (∀ x y, x < rows → y < cols → reassemble m (rows / gr) (cols / gc) x y = m x y) := by
  refine ⟨fun i j r c => rfl, ?_, ?_, ?_, ?_⟩
  · intro x hx
    have hdvd : gr * (rows / gr) = rows := Nat.mul_div_cancel' (Nat.dvd_of_mod_eq_zero hr)
    have ht : 0 < rows / gr := by
      rcases Nat.eq_zero_or_pos (rows / gr) with h0 | h0
      · rw [h0, Nat.mul_zero] at hdvd; omega
      · exact h0
    exact ⟨(Nat.div_lt_iff_lt_mul ht).mpr (by rw [hdvd]; exact hx),
      Nat.mod_lt x ht⟩
  · intro y hy
    have hdvd : gc * (cols / gc) = cols := Nat.mul_div_cancel' (Nat.dvd_of_mod_eq_zero hc)
    have ht : 0 < cols / gc := by
      rcases Nat.eq_zero_or_pos (cols / gc) with h0 | h0
      · rw [h0, Nat.mul_zero] at hdvd; omega
      · exact h0
    exact ⟨(Nat.div_lt_iff_lt_mul ht).mpr (by rw [hdvd]; exact hy),
      Nat.mod_lt y ht⟩
  · intro t i r i' r' heq hr1 hr2
    have h0 : 0 < t := lt_of_le_of_lt (Nat.zero_le r) hr1
    have d1 : (i * t + r) / t = i := by
      rw [Nat.add_comm, Nat.add_mul_div_right _ _ h0, Nat.div_eq_of_lt hr1, Nat.zero_add]
    have d2 : (i' * t + r') / t = i' := by
      rw [Nat.add_comm, Nat.add_mul_div_right _ _ h0, Nat.div_eq_of_lt hr2, Nat.zero_add]
    have m1 : (i * t + r) % t = r := by
      rw [Nat.add_comm, Nat.add_mul_mod_self_right, Nat.mod_eq_of_lt hr1]
    have m2 : (i' * t + r') % t = r' := by
      rw [Nat.add_comm, Nat.add_mul_mod_self_right, Nat.mod_eq_of_lt hr2]
    constructor
    · rw [← d1, ← d2, heq]
    · rw [← m1, ← m2, heq]
  · intro x y hx hy
    show m (x / (rows / gr) * (rows / gr) + x % (rows / gr))
        (y / (cols / gc) * (cols / gc) + y % (cols / gc)) = m x y
    rw [Nat.div_add_mod', Nat.div_add_mod']

/-- Witness for C1 at a concrete 4 by 6 matrix tiled 2 by 3. -/
theorem draw_matrix_tiling_witness :
    reassemble mSample (4 / 2) (6 / 3) 3 5 = mSample 3 5 :=
  (draw_matrix_tiling 4 6 2 3 (by decide) (by decide) (by decide) (by decide)
    mSample).2.2.2.2 3 5 (by decide) (by decide)

/-- C3: in binary mode every element is thresholded independently at
greater-than-zero (true maps to palette index 1, white; false to index 0,
black), every tile carries the fixed two-entry palette and the fixed
value range 0 to 1; an all-nonpositive matrix yields all-false (dark)
tiles and an all-positive matrix all-true (light) tiles. -/
theorem binary_mode_threshold (m : Nat → Nat → Int) (tr tc i j : Nat) :
    (mkBinaryImage m tr tc i j).cmap = Cmap.listed ["black", "white"] ∧
    (mkBinaryImage m tr tc i j).climLo = 0 ∧
    (mkBinaryImage m tr tc i j).climHi = 1 ∧
    (mkBinaryImage m tr tc i j).data =
      ImgData.bin (fun r c => decide (0 < m (i * tr + r) (j * tc + c))) ∧
    ((∀ r c, m r c ≤ 0) →
      (mkBinaryImage m tr tc i j).data = ImgData.bin (fun _ _ => false)) ∧
    ((∀ r c, 0 < m r c) →
      (mkBinaryImage m tr tc i j).data = ImgData.bin (fun _ _ => true)) := by
  refine ⟨rfl, rfl, rfl, rfl, ?_, ?_⟩
  · intro h
    exact congrArg ImgData.bin (funext fun r => funext fun c =>
      decide_eq_false (not_lt.mpr (h _ _)))
  · intro h
    exact congrArg ImgData.bin (funext fun r => funext fun c =>
      decide_eq_true (h _ _))

/-- Witness for C3: an all-negative matrix renders an all-false tile. -/
theorem binary_mode_threshold_witness :
    (mkBinaryImage (fun _ _ => (-1 : Int)) 2 3 0 1).data =
      ImgData.bin (fun _ _ => false) :=
  (binary_mode_threshold (fun _ _ => (-1 : Int)) 2 3 0 1).2.2.2.2.1
    (fun _ _ => by decide)

/-- C4: in color mode with vmin and vmax absent every tile is scaled with
exactly the minimum and maximum of the entire matrix (which really are
its least and greatest entries, both attained); explicit vmin, vmax and
cmap are used verbatim when supplied, and the palette defaults to
viridis. -/
theorem color_mode_global_range (m : Nat → Nat → Int) (rows cols tr tc i j : Nat)
    (hrows : 0 < rows) (hcols : 0 < cols) :
    (mkColorImage m rows cols tr tc Option.none Option.none Option.none i j).climLo =
      matMin m rows cols ∧
    (mkColorImage m rows cols tr tc Option.none Option.none Option.none i j).climHi =
      matMax m rows cols ∧
    (mkColorImage m rows cols tr tc Option.none Option.none Option.none i j).cmap =
      Cmap.named "viridis" ∧
    (∀ r, r < rows → ∀ c, c < cols →
      matMin m rows cols ≤ m r c ∧ m r c ≤ matMax m rows cols) ∧
    (∃ r, r < rows ∧ ∃ c, c < cols ∧ matMin m rows cols = m r c) ∧
    (∃ r, r < rows ∧ ∃ c, c < cols ∧ matMax m rows cols = m r c) ∧
    (∀ lo hi cm,
      (mkColorImage m rows cols tr tc (Option.some cm) (Option.some lo)
        (Option.some hi) i j).climLo = lo ∧
      (mkColorImage m rows cols tr tc (Option.some cm) (Option.some lo)
        (Option.some hi) i j).climHi = hi ∧
      (mkColorImage m rows cols tr tc (Option.some cm) (Option.some lo)
        (Option.some hi) i j).cmap = Cmap.named cm) :=
  ⟨rfl, rfl, rfl,
   fun r hr c hc => ⟨matMin_le m rows cols r c hr hc, le_matMax m rows cols r c hr hc⟩,
   matMin_attained m rows cols hrows hcols,
   matMax_attained m rows cols hrows hcols,
   fun lo hi cm => ⟨rfl, rfl, rfl⟩⟩

/-- Witness for C4 on a concrete 2 by 2 matrix. -/
theorem color_mode_global_range_witness :
    (mkColorImage mSample 2 2 1 1 Option.none Option.none Option.none 0 0).climLo =
      matMin mSample 2 2 :=
  (color_mode_global_range mSample 2 2 1 1 0 0 (by decide) (by decide)).1

/-- C5 (code evaluation): on a 10 by 10 matrix with grid_rows 3 the
divisibility check fires, but formatting its message evaluates the
undefined name effective_cols, so the call raises NameError; no
ValueError carrying the dimensions is ever produced. -/
theorem divisor_check_raises_name_error :
    validate (MatInput.mat2d 10 10 (fun _ _ => 0)) "binary"
        (GridParam.int 3) GridParam.none =
      Except.error (PyError.nameError "effective_cols") ∧
    ∀ msg, validate (MatInput.mat2d 10 10 (fun _ _ => 0)) "binary"
        (GridParam.int 3) GridParam.none ≠
      Except.error (PyError.valueError msg) := by
  have h1 : validate (MatInput.mat2d 10 10 (fun _ _ => 0)) "binary"
      (GridParam.int 3) GridParam.none =
      Except.error (PyError.nameError "effective_cols") := rfl
  refine ⟨h1, fun msg hmsg => ?_⟩
  rw [h1] at hmsg
  injection hmsg with h2
  exact PyError.noConfusion h2

/-- C6: every invalid input (non-2D matrix, unrecognized mode, invalid
grid parameter, or non-dividing grid dimensions) makes draw_matrix raise
synchronously with the world unchanged: no figure is created or touched
and the cache is exactly as before the call. -/
theorem draw_matrix_fail_fast (p : DrawParams) (w : World) (h : invalidInput p) :
    ∃ e, draw_matrix p w = (Option.some e, w) := by
  cases hv : validate p.matrix p.mode p.grid_rows p.grid_cols with
  | error e => exact ⟨e, draw_matrix_validate_error p w e hv⟩
  | ok v =>
    exfalso
    obtain ⟨hmat, hm, hgr, hgc, hdr, hdc⟩ :=
      validate_ok_spec p.matrix p.mode p.grid_rows p.grid_cols v hv
    rcases h with h | h | h | h | h
    · rw [h] at hmat; exact MatInput.noConfusion hmat
    · rcases hm with hm | hm
      · exact h.1 hm
      · exact h.2 hm
    · rw [invalidGrid_effGrid_none _ h] at hgr; exact Option.noConfusion hgr
    · rw [invalidGrid_effGrid_none _ h] at hgc; exact Option.noConfusion hgc
    · rcases h with ⟨rows, cols, d, hmm, egr, egc, he1, he2, hnd⟩
      rw [hmm] at hmat
      injection hmat with h1 h2 h3
      rw [he1] at hgr
      injection hgr with hgr
      rw [he2] at hgc
      injection hgc with hgc
      rcases hnd with hnd | hnd
      · exact hnd (by rw [h1, hgr]; exact hdr)
      · exact hnd (by rw [h2, hgc]; exact hdc)

/-- Witness for C6: a non-2D input is rejected with the world unchanged. -/
theorem draw_matrix_fail_fast_witness :
    ∃ e, draw_matrix pNot2d wEmpty = (Option.some e, wEmpty) :=
  draw_matrix_fail_fast pNot2d wEmpty (Or.inl rfl)

/-- C9: every valid call whose configuration key is not in the cache takes
the creation path: a fresh figure is allocated (its window opens), the
attempt to register the (fig, axes, image_objects) tuple in the
weak-value dictionary raises TypeError because a tuple supports no weak
references, the cache is left unchanged, and the fresh figure still has
its empty image_objects array and no suptitle: the call never reaches the
rendering loops. -/
theorem draw_matrix_store_type_error (p : DrawParams) (w : World) (v : ValidOut)
    (hv : validate p.matrix p.mode p.grid_rows p.grid_cols = Except.ok v)
    (hmiss : cacheGet w.cache (figureKey p.title v.egr v.egc p.figsize) = Option.none) :
    draw_matrix p w =
      (Option.some (PyError.typeError "cannot create weak reference to a tuple object"),
       { figs := w.figs ++ [w.nextId]
         figState := setFig w.figState w.nextId freshFigure
         cache := w.cache
         nextId := w.nextId + 1 }) := by
  unfold draw_matrix
  rw [hv]
  simp only [hmiss]
  rfl

/-- Witness for C9: the first call ever made raises the TypeError with
figure 0 freshly opened, empty, and uncached. -/
theorem draw_matrix_store_type_error_witness :
    draw_matrix pSample wEmpty =
      (Option.some (PyError.typeError "cannot create weak reference to a tuple object"),
       { figs := wEmpty.figs ++ [wEmpty.nextId]
         figState := setFig wEmpty.figState wEmpty.nextId freshFigure
         cache := wEmpty.cache
         nextId := wEmpty.nextId + 1 }) :=
  draw_matrix_store_type_error pSample wEmpty
    ⟨1, 1, fun _ _ => 0, 1, 1⟩ rfl rfl

/-- C2 (code evaluation): two draw_matrix calls with identical parameters
do not share a display handle: the first call raises TypeError at the
cache store, leaving the cache empty, so the second call misses the cache
too, opens a second figure (figure 1 next to figure 0) and raises again;
nothing is ever reused or mutated in place. -/
theorem draw_matrix_second_call_no_reuse :
    (draw_matrix pSample wEmpty).1 =
      Option.some (PyError.typeError "cannot create weak reference to a tuple object") ∧
    (draw_matrix pSample wEmpty).2.cache = [] ∧
    (draw_matrix pSample (draw_matrix pSample wEmpty).2).1 =
      Option.some (PyError.typeError "cannot create weak reference to a tuple object") ∧
    (draw_matrix pSample (draw_matrix pSample wEmpty).2).2.figs = [0, 1] :=
  ⟨rfl, rfl, rfl, rfl⟩

/-- C7 (code evaluation): a call whose cached figure was closed by the
user is treated like a cache miss (creation is attempted and a second
figure opens), but the creation path raises TypeError at the cache store
instead of completing without error. -/
theorem draw_matrix_closed_recreate_raises :
    (draw_matrix pTitled wClosed).1 =
      Option.some (PyError.typeError "cannot create weak reference to a tuple object") ∧
    (draw_matrix pTitled wClosed).2.figs = [0, 1] :=
  ⟨rfl, rfl⟩

/-- C8 (counterexample): a call that omits the title does not clear the
heading previously set on the titled display: the untitled call carries a
different configuration key, so figure 0 keeps its heading T (it is not
set to the empty string). -/
theorem omitted_title_leaves_stale_heading :
    ((draw_matrix pSample wTitled).2.figState 0).suptitle = Option.some "T" ∧
    figureKey (Option.some "T") 1 1 (6, 6) ≠ figureKey Option.none 1 1 (6, 6) := by
  exact ⟨rfl, by decide⟩

/-- C8 (amended): the title is part of the configuration key, so a call
omitting the title targets an independent surface and can never clear the
heading the titled call set; within the figure a call does target, a
truthy title is set as the heading and an absent title sets an existing
heading text to the empty string. -/
theorem title_in_key_heading_behavior (t : String) (ht : t ≠ "") (egr egc : Nat)
    (fs : Int × Int) :
    figureKey (Option.some t) egr egc fs ≠ figureKey Option.none egr egc fs ∧
    (∀ cur, applySuptitle (Option.some t) cur = Option.some t) ∧
    (∀ cur, applySuptitle Option.none (Option.some cur) = Option.some "") ∧
    applySuptitle Option.none Option.none = Option.none := by
  refine ⟨?_, ?_, fun cur => rfl, rfl⟩
  · intro h
    exact Option.noConfusion (congrArg Prod.fst h)
  · intro cur
    simp [applySuptitle, pyTruthy, ht]

/-- Witness for C8 at the concrete title T. -/
theorem title_in_key_heading_behavior_witness :
    figureKey (Option.some "T") 2 2 (6, 6) ≠ figureKey Option.none 2 2 (6, 6) ∧
    applySuptitle (Option.some "T") Option.none = Option.some "T" :=
  ⟨(title_in_key_heading_behavior "T" (by decide) 2 2 (6, 6)).1,
   (title_in_key_heading_behavior "T" (by decide) 2 2 (6, 6)).2.1 Option.none⟩

/-- C10: an explicitly supplied empty-string title is falsy exactly like
an omitted title: the heading branch skips setting a heading, clears an
existing heading to the empty string, and leaves a figure without a
heading unchanged, identically in both cases. -/
theorem empty_title_behaves_as_absent :
    pyTruthy (Option.some "") = false ∧
    (∀ cur, applySuptitle (Option.some "") cur = applySuptitle Option.none cur) ∧
    (∀ s, applySuptitle (Option.some "") (Option.some s) = Option.some "") ∧
    applySuptitle (Option.some "") Option.none = Option.none := by
  refine ⟨by decide, fun cur => ?_, fun s => rfl, rfl⟩
  cases cur <;> rfl
